import Mathlib

/-!
Verification of the amp-sdk telemetry core: a shallow embedding of the
`BatchProcessor` delivery queue (`packages/core/src/batcher.js`), the
`retry` helper (`packages/core/src/utils/index.ts`), and the `Span`/`Trace`
record model (`packages/core/src/spans/span.ts`, `trace.ts`), together with
theorems settling the spec claims about them.

The host runtime is single-threaded event-loop JavaScript: an `async`
method runs synchronously between `await` suspension points.  The only
suspension point inside `BatchProcessor.flush` is the awaited
`sendBatch` call (the transport POST plus backoff sleeps), so a flush is
modelled as a pure function of the pre-state, the outcomes of the
successive transport calls, and the list of records enqueued while the
send was in flight.
-/

namespace AmpSDK

/-! ## Delivery queue (BatchProcessor) -/

/-- Resolved configuration held by a `BatchProcessor`
(`this.config` after the constructor's defaulting). -/
structure BPConfig where
  batchSize : Nat
  batchTimeout : Nat
  maxRetries : Nat
deriving DecidableEq, Repr

/-- The caller-supplied `AMPConfig` fields the constructor defaults.
`none` models an absent field; `some 0` models an explicit zero
(falsy in JavaScript, so the `||` fallback also replaces it). -/
structure AMPConfigIn where
  apiKey : String
  batchSize : Option Nat
  batchTimeout : Option Nat
  maxRetries : Option Nat
deriving DecidableEq, Repr

/-- JavaScript `x || d` on an optional number: an absent or zero (falsy)
value falls back to the default. -/
def jsOrNat (x : Option Nat) (d : Nat) : Nat :=
  match x with
  | none => d
  | some v => if v = 0 then d else v

/-- The defaulting performed by `BatchProcessor`'s constructor:
`batchSize: config.batchSize || 100`, `batchTimeout: config.batchTimeout || 5000`,
`maxRetries: config.maxRetries || 3`. -/
def mkBPConfig (c : AMPConfigIn) : BPConfig :=
  { batchSize := jsOrNat c.batchSize 100
    batchTimeout := jsOrNat c.batchTimeout 5000
    maxRetries := jsOrNat c.maxRetries 3 }

/-- Mutable state of a `BatchProcessor` over records of type `R`
(`TraceData` in the source).  `timerSet` models whether `this.timer`
is non-null. -/
structure BPState (R : Type) where
  queue : List R
  timerSet : Bool
  isFlushing : Bool
  isShutdown : Bool
deriving DecidableEq, Repr

/-- State installed by the constructor: empty queue, no timer, not
flushing, not shut down. -/
def initState (R : Type) : BPState R :=
  { queue := [], timerSet := false, isFlushing := false, isShutdown := false }

/-! ### The retry helper (`utils/index.ts`)

`retry(fn, maxRetries, baseDelay)` runs `fn` for `attempt = 0 .. maxRetries`;
on error it keeps the last error and, when `attempt < maxRetries`, sleeps
`baseDelay * 2 ^ attempt` before the next attempt; after the loop it throws
the last error.  The embedding takes the outcome of the `n`-th transport
call as a function `fn n` and additionally reports how many calls were
made and which backoff delays were slept. -/

/-- Outcome of a `retry` run: the returned (or thrown) value, the number
of calls to `fn`, and the backoff delays slept, in order. -/
structure RetryResult (E T : Type) where
  result : Except E T
  calls : Nat
  delays : List Nat
deriving Repr

/-- The retry loop from attempt `attempt` with `remaining` further
attempts allowed after the current one. -/
def retryGo {E T : Type} (fn : Nat → Except E T) (baseDelay attempt : Nat) :
    Nat → RetryResult E T
  | 0 =>
    match fn attempt with
    | Except.ok t => ⟨Except.ok t, 1, []⟩
    | Except.error e => ⟨Except.error e, 1, []⟩
  | remaining + 1 =>
    match fn attempt with
    | Except.ok t => ⟨Except.ok t, 1, []⟩
    | Except.error _ =>
      let r := retryGo fn baseDelay (attempt + 1) remaining
      ⟨r.result, r.calls + 1, baseDelay * 2 ^ attempt :: r.delays⟩

/-- `retry(fn, maxRetries, baseDelay)`: up to `maxRetries + 1` total calls
starting at attempt `0`. -/
def retryRun {E T : Type} (fn : Nat → Except E T) (maxRetries baseDelay : Nat) :
    RetryResult E T :=
  retryGo fn baseDelay 0 maxRetries

/-! ### enqueue / flush / shutdown -/

/-- What `enqueue` did besides appending: dropped the record (shutdown),
called `flush()` (batch size reached), armed the timeout timer with the
given delay, or nothing (a timer was already pending). -/
inductive EnqAction
  | dropped
  | flushTriggered
  | timerStarted (delayMs : Nat)
  | noop
deriving DecidableEq, Repr

/-- The synchronous body of `BatchProcessor.enqueue`: reject when shut
down; append; flush when `queue.length >= batchSize`; else arm the timer
only when none is pending.  The triggered flush itself is carried as the
`EnqAction` (it is an un-awaited async call in the source). -/
def enqueue {R : Type} (cfg : BPConfig) (s : BPState R) (r : R) :
    BPState R × EnqAction :=
  if s.isShutdown then (s, EnqAction.dropped)
  else
    let s1 : BPState R := { s with queue := s.queue ++ [r] }
    if cfg.batchSize ≤ s1.queue.length then (s1, EnqAction.flushTriggered)
    else if s1.timerSet then (s1, EnqAction.noop)
    else ({ s1 with timerSet := true }, EnqAction.timerStarted cfg.batchTimeout)

/-- Effect of an `enqueue` that happens while a flush is in flight
(`isFlushing = true`).  The append and timer logic are as in `enqueue`;
a flush triggered by the size threshold runs only its synchronous prefix
(clear the timer, then return `null` because `isFlushing` is set). -/
def enqueueInFlight {R : Type} (cfg : BPConfig) (s : BPState R) (r : R) :
    BPState R :=
  if s.isShutdown then s
  else
    let q := s.queue ++ [r]
    if cfg.batchSize ≤ q.length then { s with queue := q, timerSet := false }
    else if s.timerSet then { s with queue := q }
    else { s with queue := q, timerSet := true }

/-- Result of a `flush()` call: the post-state, the value returned to the
caller (`Except.error` models the re-raised failure, `Except.ok none`
models the early `return null`), and the transport call count and backoff
delays of the underlying `sendBatch` retry loop (both `0`/empty when no
send happened). -/
structure FlushResult (R E T : Type) where
  state : BPState R
  ret : Except E (Option T)
  calls : Nat
  delays : List Nat

/-- `BatchProcessor.flush`: clear the timer; return `null` when the queue
is empty or a flush is in flight; otherwise swap the queue into a local
batch, send it via `retry(.., maxRetries, 500)` (`sendBatch`), and on
failure prepend the batch back onto whatever was enqueued during the
attempt and re-raise.  `transport n` is the outcome of the `n`-th POST of
this flush; `during` are the records enqueued while the send was
awaited. -/
def flush {R E T : Type} (cfg : BPConfig) (s : BPState R)
    (transport : Nat → Except E T) (during : List R) : FlushResult R E T :=
  let s0 : BPState R := { s with timerSet := false }
  if s0.queue.isEmpty || s0.isFlushing then
    ⟨s0, Except.ok none, 0, []⟩
  else
    let traces := s0.queue
    let s1 : BPState R := { s0 with queue := [], isFlushing := true }
    let s2 := during.foldl (enqueueInFlight cfg) s1
    let r := retryRun transport cfg.maxRetries 500
    match r.result with
    | Except.ok resp =>
      ⟨{ s2 with isFlushing := false }, Except.ok (some resp), r.calls, r.delays⟩
    | Except.error e =>
      ⟨{ s2 with queue := traces ++ s2.queue, isFlushing := false },
        Except.error e, r.calls, r.delays⟩

/-- `enqueue` together with the flush it triggers (if any): the state
observable once the triggered flush has completed. -/
def enqueueStep {R E T : Type} (cfg : BPConfig) (s : BPState R) (r : R)
    (transport : Nat → Except E T) (during : List R) : BPState R :=
  match enqueue cfg s r with
  | (s1, EnqAction.flushTriggered) => (flush cfg s1 transport during).state
  | (s1, _) => s1

/-- `BatchProcessor.shutdown`: set `isShutdown`, clear the timer, and when
the queue is non-empty run a final `flush()` whose failure is swallowed
(state kept, error only logged). -/
def shutdown {R E T : Type} (cfg : BPConfig) (s : BPState R)
    (transport : Nat → Except E T) (during : List R) : BPState R :=
  let s1 : BPState R := { s with isShutdown := true, timerSet := false }
  if s1.queue.isEmpty then s1
  else (flush cfg s1 transport during).state

/-! ## Record model (Span, Trace)

Timestamps (`now()` in the source) are ISO strings produced impurely; the
embedding passes the current timestamp to `end` explicitly as an opaque
`String`. -/

/-- Tri-state span/trace status (`SpanStatus` in `types/index.ts`). -/
inductive SpanStatus
  | unset
  | ok
  | error
deriving DecidableEq, Repr

/-- Closed set of span type tags (`SpanType` in `types/index.ts`). -/
inductive SpanType
  | llm
  | tool
  | rag
  | orchestration
  | agent
  | custom
deriving DecidableEq, Repr

/-- A retrieved document as consumed by `setRetrievedContext`:
`{ doc_id, content, score }`.  Scores are JavaScript numbers; they are
embedded as rationals (NaN excluded from the model). -/
structure Doc where
  doc_id : String
  content : String
  score : ℚ
deriving DecidableEq, Repr

/-- Attribute values.  `num ⊥` represents the JavaScript `-Infinity`
(`WithBot ℚ` orders it below every rational, matching `Math.max`).
`jsonArr ds` models the string `JSON.stringify(ds)` opaquely. -/
inductive AttrVal
  | num (x : WithBot ℚ)
  | str (s : String)
  | boolean (b : Bool)
  | jsonArr (ds : List Doc)
deriving DecidableEq, Repr

/-- The attribute bag `this._attributes`: a JavaScript object embedded as
a key/value list in insertion order. -/
abbrev Attrs := List (String × AttrVal)

/-- JavaScript property write `attrs[k] = v`: replace the value in place
when the key exists, else append the new key at the end. -/
def setAttr : Attrs → String → AttrVal → Attrs
  | [], k, v => [(k, v)]
  | (k', v') :: rest, k, v =>
    if k' = k then (k, v) :: rest else (k', v') :: setAttr rest k v

/-- JavaScript property read `attrs[k]`. -/
def getAttr : Attrs → String → Option AttrVal
  | [], _ => none
  | (k', v) :: rest, k => if k' = k then some v else getAttr rest k

/-- An entry of `this._events`: `{ name, timestamp, attributes }`. -/
structure SpanEvent where
  name : String
  timestamp : String
  attributes : Attrs
deriving DecidableEq, Repr

/-- The `Span` record (`spans/span.ts`): private fields of the class. -/
structure Span where
  spanId : String
  traceId : String
  parentSpanId : Option String
  name : String
  type : SpanType
  startTime : String
  endTime : Option String
  status : SpanStatus
  statusMessage : Option String
  attributes : Attrs
  metadata : Attrs
  events : List SpanEvent
  ended : Bool
deriving DecidableEq, Repr

/-- `Span.end()` (named `end'` because `end` is a Lean keyword): no-op
with a warning when already ended; otherwise set `endTime`, mark ended,
and promote an `unset` status to `ok`. -/
def Span.end' (sp : Span) (t : String) : Span :=
  if sp.ended then sp
  else
    { sp with
      endTime := some t
      ended := true
      status := if sp.status = SpanStatus.unset then SpanStatus.ok else sp.status }

/-- `Span.setTokens(inputTokens, outputTokens)`: `total = input + output`,
then three standard OTEL GenAI keys followed by five legacy keys, written
in source order. -/
def Span.setTokens (sp : Span) (inputTokens outputTokens : ℚ) : Span :=
  let total := inputTokens + outputTokens
  let attrs :=
    setAttr (setAttr (setAttr (setAttr (setAttr (setAttr (setAttr (setAttr
      sp.attributes
      "gen_ai.usage.input_tokens" (AttrVal.num (inputTokens : ℚ)))
      "gen_ai.usage.output_tokens" (AttrVal.num (outputTokens : ℚ)))
      "gen_ai.usage.total_tokens" (AttrVal.num (total : ℚ)))
      "gen_ai.usage.prompt_tokens" (AttrVal.num (inputTokens : ℚ)))
      "gen_ai.usage.completion_tokens" (AttrVal.num (outputTokens : ℚ)))
      "gen_ai.prompt_tokens" (AttrVal.num (inputTokens : ℚ)))
      "gen_ai.completion_tokens" (AttrVal.num (outputTokens : ℚ)))
      "gen_ai.total_tokens" (AttrVal.num (total : ℚ))
  { sp with attributes := attrs }

/-- JavaScript `Math.max(...xs)`: the maximum of the arguments, or
`-Infinity` (here `⊥`) when there are none. -/
def jsMathMax (xs : List ℚ) : WithBot ℚ :=
  xs.foldr (fun x m => max (x : WithBot ℚ) m) ⊥

/-- `Span.setRetrievedContext(context)`: stores the serialized context,
`context_length` as the sum of content lengths (`reduce` with seed `0`),
and `top_score` as `Math.max` over the scores. -/
def Span.setRetrievedContext (sp : Span) (context : List Doc) : Span :=
  let attrs :=
    setAttr (setAttr (setAttr sp.attributes
      "retrieved_context" (AttrVal.jsonArr context))
      "context_length"
        (AttrVal.num ((context.foldl (fun sum doc => sum + doc.content.length) 0 : ℕ) : ℚ)))
      "top_score" (AttrVal.num (jsMathMax (context.map (fun doc => doc.score))))
  { sp with attributes := attrs }

/-- The `Trace` record (`spans/trace.ts`).  `hasOnEnd` records whether an
`onEnd` callback was registered. -/
structure Trace where
  traceId : String
  sessionId : String
  name : String
  startTime : String
  endTime : Option String
  status : SpanStatus
  spans : List Span
  metadata : Attrs
  ended : Bool
  hasOnEnd : Bool
deriving DecidableEq, Repr

/-- `Trace.end()`: no-op with a warning when already ended; otherwise
force-end every not-yet-ended span, set `endTime`, mark ended, compute the
status from the finalized spans when it is still `unset`, and invoke the
registered `onEnd` callback.  The second component counts the callback
invocations performed by this call. -/
def Trace.end' (tr : Trace) (t : String) : Trace × Nat :=
  if tr.ended then (tr, 0)
  else
    let spans' := tr.spans.map (fun sp => if sp.ended then sp else sp.end' t)
    let hasError := spans'.any (fun sp => sp.status = SpanStatus.error)
    let status' :=
      if tr.status = SpanStatus.unset then
        (if hasError then SpanStatus.error else SpanStatus.ok)
      else tr.status
    ({ tr with spans := spans', endTime := some t, ended := true, status := status' },
      if tr.hasOnEnd then 1 else 0)

/-- A freshly constructed span with no attributes, used for concrete
instantiations: `new Span('work', 't1')` with generated id `"s1"` at time
`"t0"`. -/
def blankSpan : Span :=
  { spanId := "s1", traceId := "t1", parentSpanId := none, name := "work"
    type := SpanType.custom, startTime := "t0", endTime := none
    status := SpanStatus.unset, statusMessage := none
    attributes := [], metadata := [], events := [], ended := false }

/-- A transport whose first `k` calls fail (call `n` throwing `es n`) and
whose later calls succeed with `t`. -/
def failFirst {E T : Type} (k : Nat) (es : Nat → E) (t : T) :
    Nat → Except E T :=
  fun n => if n < k then Except.error (es n) else Except.ok t

/-- States of a `BatchProcessor` reachable from the freshly constructed
state through quiescent-point operations along which every transport call
succeeds immediately and no record is enqueued while a flush is in
flight. -/
inductive ReachOk {R : Type} (cfg : BPConfig) : BPState R → Prop
  | init : ReachOk cfg (initState R)
  | enq (s : BPState R) (r : R) (h : ReachOk cfg s) :
      ReachOk cfg (enqueueStep (E := Unit) (T := Unit) cfg s r (fun _ => Except.ok ()) [])
  | doFlush (s : BPState R) (h : ReachOk cfg s) :
      ReachOk cfg (flush (E := Unit) (T := Unit) cfg s (fun _ => Except.ok ()) []).state
  | doShutdown (s : BPState R) (h : ReachOk cfg s) :
      ReachOk cfg (shutdown (E := Unit) (T := Unit) cfg s (fun _ => Except.ok ()) [])

/-! ## Helper lemmas -/

lemma enqueueInFlight_isShutdown {R : Type} (cfg : BPConfig) (s : BPState R) (r : R) :
    (enqueueInFlight cfg s r).isShutdown = s.isShutdown := by
  simp only [enqueueInFlight]
  split_ifs <;> rfl

lemma enqueueInFlight_queue {R : Type} (cfg : BPConfig) (s : BPState R) (r : R)
    (h : s.isShutdown = false) :
    (enqueueInFlight cfg s r).queue = s.queue ++ [r] := by
  simp only [enqueueInFlight, h, Bool.false_eq_true, if_false]
  split_ifs <;> rfl

lemma foldl_inFlight_spec {R : Type} (cfg : BPConfig) :
    ∀ (during : List R) (s : BPState R), s.isShutdown = false →
      (during.foldl (enqueueInFlight cfg) s).queue = s.queue ++ during ∧
      (during.foldl (enqueueInFlight cfg) s).isShutdown = false := by
  intro during
  induction during with
  | nil => intro s h; exact ⟨by simp, h⟩
  | cons r rest ih =>
    intro s h
    have h3 : (enqueueInFlight cfg s r).isShutdown = false := by
      rw [enqueueInFlight_isShutdown, h]
    obtain ⟨hq, hs⟩ := ih (enqueueInFlight cfg s r) h3
    refine ⟨?_, by simpa using hs⟩
    simp only [List.foldl_cons]
    rw [hq, enqueueInFlight_queue cfg s r h, List.append_assoc, List.singleton_append]

lemma retryGo_error {E T : Type} (es : Nat → E) (b : Nat) :
    ∀ (m a : Nat),
      (retryGo (T := T) (fun n => Except.error (es n)) b a m).result
        = Except.error (es (a + m)) := by
  intro m
  induction m with
  | zero => intro a; simp [retryGo]
  | succ m ih =>
    intro a
    have e : a + 1 + m = a + (m + 1) := by omega
    simpa [retryGo, ← e] using ih (a + 1)

lemma cons_pow_delays (b a n : Nat) :
    b * 2 ^ a :: (List.range n).map (fun i => b * 2 ^ (a + 1 + i))
      = (List.range (n + 1)).map (fun i => b * 2 ^ (a + i)) := by
  rw [List.range_succ_eq_map, List.map_cons, List.map_map]
  have hf : ((fun i => b * 2 ^ (a + i)) ∘ Nat.succ) = fun i => b * 2 ^ (a + 1 + i) := by
    funext i
    show b * 2 ^ (a + (i + 1)) = b * 2 ^ (a + 1 + i)
    congr 1
    congr 1
    omega
  rw [hf]
  norm_num

lemma retryGo_failFirst {E T : Type} (k : Nat) (es : Nat → E) (t : T) (b : Nat) :
    ∀ (m a : Nat),
      retryGo (failFirst k es t) b a m =
        if k ≤ a then ⟨Except.ok t, 1, []⟩
        else if k ≤ a + m then
          ⟨Except.ok t, (k - a) + 1, (List.range (k - a)).map (fun i => b * 2 ^ (a + i))⟩
        else ⟨Except.error (es (a + m)), m + 1,
          (List.range m).map (fun i => b * 2 ^ (a + i))⟩ := by
  intro m
  induction m with
  | zero =>
    intro a
    by_cases h : k ≤ a
    · simp [retryGo, failFirst, h, Nat.not_lt.mpr h]
    · have ha : a < k := Nat.lt_of_not_le h
      simp [retryGo, failFirst, h, ha]
  | succ m ih =>
    intro a
    by_cases h : k ≤ a
    · simp [retryGo, failFirst, h, Nat.not_lt.mpr h]
    · have ha : a < k := Nat.lt_of_not_le h
      have hfa : failFirst k es t a = Except.error (es a) := by simp [failFirst, ha]
      simp only [retryGo, hfa]
      rw [ih (a + 1)]
      by_cases h1 : k ≤ a + 1
      · have hk : k = a + 1 := by omega
        have h3 : k ≤ a + (m + 1) := by omega
        simp [h, h3, hk, List.range_succ]
      · by_cases h2 : k ≤ a + 1 + m
        · have h3 : k ≤ a + (m + 1) := by omega
          have hc : k - a = (k - (a + 1)) + 1 := by omega
          simp only [h, h1, h2, h3, if_true, if_false]
          rw [hc, ← cons_pow_delays]
        · have h3 : ¬ k ≤ a + (m + 1) := by omega
          have he : a + 1 + m = a + (m + 1) := by omega
          simp only [h, h1, h2, h3, if_true, if_false]
          rw [← cons_pow_delays, he]

lemma retryGo_ok {E T : Type} (fn : Nat → Except E T) (b a m : Nat) (t : T)
    (h : fn a = Except.ok t) :
    retryGo fn b a m = ⟨Except.ok t, 1, []⟩ := by
  cases m <;> simp [retryGo, h]

lemma retryRun_failFirst {E T : Type} (k m b : Nat) (es : Nat → E) (t : T) :
    retryRun (failFirst k es t) m b =
      ⟨if k ≤ m then Except.ok t else Except.error (es m),
        min k m + 1,
        (List.range (min k m)).map (fun i => b * 2 ^ i)⟩ := by
  unfold retryRun
  rw [retryGo_failFirst]
  by_cases h0 : k ≤ 0
  · have hk : k = 0 := by omega
    simp [hk]
  · by_cases h1 : k ≤ 0 + m
    · have hm : min k m = k := Nat.min_eq_left (by omega)
      have hkm : k ≤ m := by omega
      simp [h0, h1, hm, hkm]
    · have hm : min k m = m := Nat.min_eq_right (by omega)
      have hkm : ¬ k ≤ m := by omega
      simp [h0, h1, hm, hkm]

lemma isEmpty_false_of_ne {α : Type} (l : List α) (h : l ≠ []) :
    l.isEmpty = false := by
  cases l with
  | nil => exact absurd rfl h
  | cons a t => rfl

lemma flush_guard_false {R : Type} (s : BPState R)
    (hq : s.queue ≠ []) (hf : s.isFlushing = false) :
    (({ s with timerSet := false } : BPState R).queue.isEmpty
      || ({ s with timerSet := false } : BPState R).isFlushing) = false := by
  show (s.queue.isEmpty || s.isFlushing) = false
  rw [isEmpty_false_of_ne _ hq, hf]
  rfl

lemma flush_early_eq {R E T : Type} (cfg : BPConfig) (s : BPState R)
    (transport : Nat → Except E T) (during : List R)
    (h : s.queue = [] ∨ s.isFlushing = true) :
    flush cfg s transport during =
      ⟨{ s with timerSet := false }, Except.ok none, 0, []⟩ := by
  have hcond : (({ s with timerSet := false } : BPState R).queue.isEmpty
      || ({ s with timerSet := false } : BPState R).isFlushing) = true := by
    show (s.queue.isEmpty || s.isFlushing) = true
    rcases h with h | h <;> simp [h]
  simp only [flush, hcond, if_true]

lemma flush_error {R E T : Type} (cfg : BPConfig) (s : BPState R)
    (transport : Nat → Except E T) (during : List R) (e : E)
    (hq : s.queue ≠ []) (hf : s.isFlushing = false)
    (herr : (retryRun transport cfg.maxRetries 500).result = Except.error e) :
    flush cfg s transport during =
      ⟨{ during.foldl (enqueueInFlight cfg)
            { s with queue := [], timerSet := false, isFlushing := true } with
          queue := s.queue ++ (during.foldl (enqueueInFlight cfg)
            { s with queue := [], timerSet := false, isFlushing := true }).queue,
          isFlushing := false },
        Except.error e,
        (retryRun transport cfg.maxRetries 500).calls,
        (retryRun transport cfg.maxRetries 500).delays⟩ := by
  have hcond := flush_guard_false s hq hf
  simp only [flush, hcond, Bool.false_eq_true, if_false]
  rcases hE : retryRun transport cfg.maxRetries 500 with ⟨res, calls, delays⟩
  rw [hE] at herr
  simp only at herr
  subst herr
  rfl

lemma flush_ok {R E T : Type} (cfg : BPConfig) (s : BPState R)
    (transport : Nat → Except E T) (during : List R) (t : T)
    (hq : s.queue ≠ []) (hf : s.isFlushing = false)
    (hok : (retryRun transport cfg.maxRetries 500).result = Except.ok t) :
    flush cfg s transport during =
      ⟨{ during.foldl (enqueueInFlight cfg)
            { s with queue := [], timerSet := false, isFlushing := true } with
          isFlushing := false },
        Except.ok (some t),
        (retryRun transport cfg.maxRetries 500).calls,
        (retryRun transport cfg.maxRetries 500).delays⟩ := by
  have hcond := flush_guard_false s hq hf
  simp only [flush, hcond, Bool.false_eq_true, if_false]
  rcases hE : retryRun transport cfg.maxRetries 500 with ⟨res, calls, delays⟩
  rw [hE] at hok
  simp only at hok
  subst hok
  rfl

/-! ## Claims -/

/-- Claim C1 (failure requeue order): when `flush()` of a non-empty batch
fails (every transport call of the retry loop throws, so retries are
exhausted), the queue on return is the failed batch followed by the
records enqueued during the failed attempt, in order, and the last error
is re-raised to the caller of `flush()` (with the single-flight guard
released). -/
theorem C1_flush_failure_requeue {R E T : Type} (cfg : BPConfig) (s : BPState R)
    (es : Nat → E) (during : List R)
    (hq : s.queue ≠ []) (hf : s.isFlushing = false) (hs : s.isShutdown = false) :
    (flush (T := T) cfg s (fun n => Except.error (es n)) during).state.queue
        = s.queue ++ during ∧
    (flush (T := T) cfg s (fun n => Except.error (es n)) during).ret
        = Except.error (es cfg.maxRetries) ∧
    (flush (T := T) cfg s (fun n => Except.error (es n)) during).state.isFlushing
        = false := by
  have herr : (retryRun (T := T) (fun n => Except.error (es n)) cfg.maxRetries 500).result
      = Except.error (es cfg.maxRetries) := by
    have h2 := retryGo_error (T := T) es 500 cfg.maxRetries 0
    simpa [retryRun] using h2
  have hrw := flush_error cfg s (fun n => Except.error (es n)) during
    (es cfg.maxRetries) hq hf herr
  obtain ⟨hq2, _⟩ := foldl_inFlight_spec cfg during
    ({ s with queue := [], timerSet := false, isFlushing := true }) hs
  rw [hrw]
  refine ⟨?_, rfl, rfl⟩
  show s.queue ++ (during.foldl (enqueueInFlight cfg) _).queue = s.queue ++ during
  rw [hq2]
  simp

/-- Witness for C1: batch `[10, 11]`, record `12` enqueued during the
failed attempt, `maxRetries = 3`, every POST throwing its call index. -/
theorem C1_flush_failure_requeue_witness :
    (flush (R := Nat) (E := Nat) (T := Unit) ⟨100, 5000, 3⟩
        ⟨[10, 11], true, false, false⟩ (fun n => Except.error n) [12]).state.queue
        = [10, 11] ++ [12] ∧
    (flush (R := Nat) (E := Nat) (T := Unit) ⟨100, 5000, 3⟩
        ⟨[10, 11], true, false, false⟩ (fun n => Except.error n) [12]).ret
        = Except.error 3 ∧
    (flush (R := Nat) (E := Nat) (T := Unit) ⟨100, 5000, 3⟩
        ⟨[10, 11], true, false, false⟩ (fun n => Except.error n) [12]).state.isFlushing
        = false :=
  C1_flush_failure_requeue ⟨100, 5000, 3⟩ ⟨[10, 11], true, false, false⟩
    (fun n => n) [12] (by decide) rfl rfl

/-- Claim C2 (empty / single-flight early return): `flush()` on an empty
queue or with a flush already in flight clears the pending timer, returns
`null`, makes zero transport calls, and leaves the queue (and every other
field) unchanged. -/
theorem C2_flush_early_null {R E T : Type} (cfg : BPConfig) (s : BPState R)
    (transport : Nat → Except E T) (during : List R)
    (h : s.queue = [] ∨ s.isFlushing = true) :
    flush cfg s transport during =
      ⟨{ s with timerSet := false }, Except.ok none, 0, []⟩ :=
  flush_early_eq cfg s transport during h

/-- Witness for C2: a second `flush()` issued while one is in flight
(`isFlushing = true`, non-empty queue) returns `null` without a POST. -/
theorem C2_flush_early_null_witness :
    flush (R := Nat) (E := Nat) (T := Unit) ⟨100, 5000, 3⟩ ⟨[5], true, true, false⟩
        (fun n => Except.error n) [] =
      ⟨⟨[5], false, true, false⟩, Except.ok none, 0, []⟩ :=
  C2_flush_early_null ⟨100, 5000, 3⟩ ⟨[5], true, true, false⟩
    (fun n => Except.error n) [] (Or.inr rfl)

/-- Claim C3 (retry policy): for a flush whose transport fails on the
first `k` calls and succeeds afterwards, the retry wrapper makes
`min k maxRetries + 1` transport calls (so `maxRetries + 1` when all
fail), sleeps `500 * 2 ^ i` before retry `i` (base delay 500 ms, no
jitter, no delay after the last failed attempt), and either resolves the
flush when `k ≤ maxRetries` or re-raises the last attempt's error to
`flush()`'s caller. -/
theorem C3_retry_backoff {R E T : Type} (cfg : BPConfig) (s : BPState R)
    (k : Nat) (es : Nat → E) (t : T) (during : List R)
    (hq : s.queue ≠ []) (hf : s.isFlushing = false) :
    (flush cfg s (failFirst k es t) during).calls = min k cfg.maxRetries + 1 ∧
    (flush cfg s (failFirst k es t) during).delays
        = (List.range (min k cfg.maxRetries)).map (fun i => 500 * 2 ^ i) ∧
    (flush cfg s (failFirst k es t) during).ret
        = (if k ≤ cfg.maxRetries then Except.ok (some t)
           else Except.error (es cfg.maxRetries)) := by
  have hR := retryRun_failFirst k cfg.maxRetries 500 es t
  by_cases hk : k ≤ cfg.maxRetries
  · have hok : (retryRun (failFirst k es t) cfg.maxRetries 500).result
        = Except.ok t := by rw [hR]; simp [hk]
    rw [flush_ok cfg s (failFirst k es t) during t hq hf hok]
    refine ⟨?_, ?_, ?_⟩ <;> simp [hR, hk]
  · have herr : (retryRun (failFirst k es t) cfg.maxRetries 500).result
        = Except.error (es cfg.maxRetries) := by rw [hR]; simp [hk]
    rw [flush_error cfg s (failFirst k es t) during (es cfg.maxRetries) hq hf herr]
    refine ⟨?_, ?_, ?_⟩ <;> simp [hR, hk]

/-- Witness for C3: the P7 scenario — a transport failing twice then
succeeding, `maxRetries = 3`: exactly 3 POSTs, delays 500 ms then
1000 ms, successful resolution. -/
theorem C3_retry_backoff_witness :
    (flush (R := Nat) (E := Nat) (T := Unit) ⟨100, 5000, 3⟩
        ⟨[7], false, false, false⟩ (failFirst 2 (fun n => n) ()) []).calls = 3 ∧
    (flush (R := Nat) (E := Nat) (T := Unit) ⟨100, 5000, 3⟩
        ⟨[7], false, false, false⟩ (failFirst 2 (fun n => n) ()) []).delays
        = [500, 1000] ∧
    (flush (R := Nat) (E := Nat) (T := Unit) ⟨100, 5000, 3⟩
        ⟨[7], false, false, false⟩ (failFirst 2 (fun n => n) ()) []).ret
        = Except.ok (some ()) := by
  have h := C3_retry_backoff ⟨100, 5000, 3⟩ ⟨[7], false, false, false⟩ 2
    (fun n => n) () [] (by decide) rfl
  refine ⟨?_, ?_, ?_⟩
  · rw [h.1]; decide
  · rw [h.2.1]; decide
  · rw [h.2.2]; rfl

/-- Claim C4 (enqueue behavior): a record enqueued on a shut-down queue
is dropped with the state unchanged; otherwise it is appended and then
either an immediate flush is triggered (`queue.length ≥ batchSize` after
the append) or a `batchTimeout`-millisecond timer is armed only when no
timer was pending (an existing timer is never rearmed). -/
theorem C4_enqueue_behavior {R : Type} (cfg : BPConfig) (s : BPState R) (r : R)
    (h : s.isShutdown = false) :
    enqueue cfg { s with isShutdown := true } r
        = ({ s with isShutdown := true }, EnqAction.dropped) ∧
    (enqueue cfg s r).1.queue = s.queue ++ [r] ∧
    (enqueue cfg s r).2 =
      (if cfg.batchSize ≤ s.queue.length + 1 then EnqAction.flushTriggered
       else if s.timerSet then EnqAction.noop
       else EnqAction.timerStarted cfg.batchTimeout) ∧
    (enqueue cfg s r).1.timerSet =
      (if cfg.batchSize ≤ s.queue.length + 1 then s.timerSet else true) ∧
    (enqueue cfg s r).1.isFlushing = s.isFlushing ∧
    (enqueue cfg s r).1.isShutdown = false := by
  refine ⟨by simp [enqueue], ?_, ?_, ?_, ?_, ?_⟩ <;>
      simp only [enqueue, h, Bool.false_eq_true, if_false, List.length_append,
        List.length_cons, List.length_nil, Nat.zero_add] <;>
    split_ifs <;> simp_all

/-- Witness for C4: enqueuing into a fresh queue with `batchSize = 2`
arms the 5000 ms timer; the same enqueue on a shut-down queue is
dropped. -/
theorem C4_enqueue_behavior_witness :
    enqueue (R := Nat) ⟨2, 5000, 3⟩ ⟨[], false, false, true⟩ 0
        = (⟨[], false, false, true⟩, EnqAction.dropped) ∧
    (enqueue (R := Nat) ⟨2, 5000, 3⟩ ⟨[], false, false, false⟩ 0).1.queue = [0] ∧
    (enqueue (R := Nat) ⟨2, 5000, 3⟩ ⟨[], false, false, false⟩ 0).2
        = EnqAction.timerStarted 5000 := by
  have h := C4_enqueue_behavior ⟨2, 5000, 3⟩ ⟨[], false, false, false⟩ 0 rfl
  exact ⟨h.1, h.2.1, by rw [h.2.2.1]; rfl⟩

lemma retryRun_ok_unit (m : Nat) :
    (retryRun (E := Unit) (T := Unit) (fun _ => Except.ok ()) m 500).result
      = Except.ok () := by
  rw [retryRun, retryGo_ok (fun _ => Except.ok ()) 500 0 m () rfl]

/-- Claim C5 counterexample: with `batchSize = 2`, enqueue `0`, then
enqueue `1` (reaching the threshold and triggering a flush) whose
transport fails while record `2` arrives.  The state after the failed
flush returns is quiescent (no flush in flight, the timer pending) yet
holds the 3 requeued records, so `queue.length < batchSize` does not hold
strictly between flush triggers. -/
theorem C5_queue_bound_cex :
    (enqueueStep (E := Unit) (T := Unit) ⟨2, 5000, 0⟩
        (enqueueStep (E := Unit) (T := Unit) ⟨2, 5000, 0⟩ (initState Nat) 0
          (fun _ => Except.ok ()) [])
        1 (fun _ => Except.error ()) [2]).isFlushing = false ∧
    (enqueueStep (E := Unit) (T := Unit) ⟨2, 5000, 0⟩
        (enqueueStep (E := Unit) (T := Unit) ⟨2, 5000, 0⟩ (initState Nat) 0
          (fun _ => Except.ok ()) [])
        1 (fun _ => Except.error ()) [2]).timerSet = true ∧
    (enqueueStep (E := Unit) (T := Unit) ⟨2, 5000, 0⟩
        (enqueueStep (E := Unit) (T := Unit) ⟨2, 5000, 0⟩ (initState Nat) 0
          (fun _ => Except.ok ()) [])
        1 (fun _ => Except.error ()) [2]).queue = [0, 1, 2] ∧
    ¬ ((enqueueStep (E := Unit) (T := Unit) ⟨2, 5000, 0⟩
        (enqueueStep (E := Unit) (T := Unit) ⟨2, 5000, 0⟩ (initState Nat) 0
          (fun _ => Except.ok ()) [])
        1 (fun _ => Except.error ()) [2]).queue.length
        < (⟨2, 5000, 0⟩ : BPConfig).batchSize) := by
  decide

/-- Claim C5 (amended): the invariant `queue.length < batchSize` at
quiescent points holds only for executions in which every flush succeeds
(first transport call accepted) and no record is enqueued while a flush
is in flight; along such executions every reachable state also has no
flush in flight.  (A failed flush, or enqueues arriving during an
in-flight send, can leave `queue.length ≥ batchSize`; see the
counterexample.) -/
theorem C5_queue_bound_amended {R : Type} (cfg : BPConfig) (s : BPState R)
    (hb : 0 < cfg.batchSize) (hr : ReachOk cfg s) :
    s.isFlushing = false ∧ s.queue.length < cfg.batchSize := by
  induction hr with
  | init => exact ⟨rfl, by simpa using hb⟩
  | enq s r hR ih =>
    by_cases hsd : s.isShutdown = true
    · simpa [enqueueStep, enqueue, hsd] using ih
    · have hsd' : s.isShutdown = false := by
        cases hx : s.isShutdown
        · rfl
        · exact absurd hx hsd
      by_cases hth : cfg.batchSize ≤ s.queue.length + 1
      · have hq1 : ({ s with queue := s.queue ++ [r] } : BPState R).queue ≠ [] := by
          simp
        have hf1 : ({ s with queue := s.queue ++ [r] } : BPState R).isFlushing = false :=
          ih.1
        have hrw := flush_ok cfg ({ s with queue := s.queue ++ [r] })
          (fun _ => Except.ok ()) [] () hq1 hf1 (retryRun_ok_unit cfg.maxRetries)
        rw [hsd'] at hrw
        simp only [enqueueStep, enqueue, hsd', Bool.false_eq_true, if_false,
          List.length_append, List.length_cons, List.length_nil, Nat.zero_add,
          hth, if_true]
        rw [hrw]
        exact ⟨rfl, by simpa using hb⟩
      · simp only [enqueueStep, enqueue, hsd', Bool.false_eq_true, if_false,
          List.length_append, List.length_cons, List.length_nil, Nat.zero_add,
          hth, if_false]
        split_ifs <;>
          exact ⟨ih.1, by simpa using Nat.lt_of_not_le hth⟩
  | doFlush s hR ih =>
    by_cases hq : s.queue = []
    · rw [flush_early_eq cfg s (fun _ => Except.ok ()) [] (Or.inl hq)]
      exact ⟨ih.1, by simpa [hq] using hb⟩
    · have hrw := flush_ok cfg s (fun _ => Except.ok ()) [] () hq ih.1
        (retryRun_ok_unit cfg.maxRetries)
      rw [hrw]
      exact ⟨rfl, by simpa using hb⟩
  | doShutdown s hR ih =>
    by_cases hq : s.queue = []
    · simp only [shutdown, hq, List.isEmpty_nil, if_true]
      exact ⟨ih.1, by simpa [hq] using hb⟩
    · have hq1 : ({ s with isShutdown := true, timerSet := false } : BPState R).queue ≠ [] :=
        hq
      have hf1 : ({ s with isShutdown := true, timerSet := false } : BPState R).isFlushing
          = false := ih.1
      have hrw := flush_ok cfg ({ s with isShutdown := true, timerSet := false })
        (fun _ => Except.ok ()) [] () hq1 hf1 (retryRun_ok_unit cfg.maxRetries)
      simp only [shutdown, isEmpty_false_of_ne _ hq, Bool.false_eq_true, if_false]
      rw [hrw]
      exact ⟨rfl, by simpa using hb⟩

/-- Witness for C5 (amended) at the initial state with `batchSize = 2`. -/
theorem C5_queue_bound_amended_witness :
    (initState Nat).isFlushing = false ∧
    (initState Nat).queue.length < (⟨2, 5000, 0⟩ : BPConfig).batchSize :=
  C5_queue_bound_amended ⟨2, 5000, 0⟩ (initState Nat) (by decide) ReachOk.init

/-- Claim C10 (falsy config defaulting): a configuration passing `0` for
`batchSize`, `batchTimeout` or `maxRetries` gets the default (100, 5000 ms,
3) because the constructor's `||` fallback tests truthiness, so `0` cannot
disable batching, the flush timer, or retries. -/
theorem C10_zero_config_defaults (c : AMPConfigIn) :
    (c.batchSize = some 0 → (mkBPConfig c).batchSize = 100) ∧
    (c.batchTimeout = some 0 → (mkBPConfig c).batchTimeout = 5000) ∧
    (c.maxRetries = some 0 → (mkBPConfig c).maxRetries = 3) := by
  refine ⟨fun h => ?_, fun h => ?_, fun h => ?_⟩ <;> simp [mkBPConfig, jsOrNat, h]

/-- Witness for C10 at the all-zero configuration. -/
theorem C10_zero_config_defaults_witness :
    (mkBPConfig ⟨"key", some 0, some 0, some 0⟩).batchSize = 100 ∧
    (mkBPConfig ⟨"key", some 0, some 0, some 0⟩).batchTimeout = 5000 ∧
    (mkBPConfig ⟨"key", some 0, some 0, some 0⟩).maxRetries = 3 :=
  ⟨(C10_zero_config_defaults _).1 rfl, (C10_zero_config_defaults _).2.1 rfl,
    (C10_zero_config_defaults _).2.2 rfl⟩

lemma getAttr_setAttr_self (attrs : Attrs) (k : String) (v : AttrVal) :
    getAttr (setAttr attrs k v) k = some v := by
  induction attrs with
  | nil => simp [setAttr, getAttr]
  | cons p rest ih =>
    obtain ⟨k1, v1⟩ := p
    by_cases h : k1 = k
    · simp [setAttr, getAttr, h]
    · simp [setAttr, getAttr, h, ih]

lemma getAttr_setAttr_ne (attrs : Attrs) (k : String) (v : AttrVal) (k2 : String)
    (h : k2 ≠ k) :
    getAttr (setAttr attrs k v) k2 = getAttr attrs k2 := by
  induction attrs with
  | nil => simp [setAttr, getAttr, Ne.symm h]
  | cons p rest ih =>
    obtain ⟨k1, v1⟩ := p
    by_cases h1 : k1 = k
    · subst h1
      simp [setAttr, getAttr, Ne.symm h]
    · by_cases h2 : k1 = k2
      · subst h2
        simp [setAttr, getAttr, h1]
      · simp [setAttr, getAttr, h1, h2, ih]

lemma spanEnd_ended (sp : Span) (t : String) : (sp.end' t).ended = true := by
  cases hx : sp.ended <;> simp [Span.end', hx]

lemma spanEnd_of_ended (sp : Span) (t : String) (h : sp.ended = true) :
    sp.end' t = sp := by
  simp [Span.end', h]

lemma traceEnd_ended (tr : Trace) (t : String) :
    (Trace.end' tr t).1.ended = true := by
  cases hx : tr.ended <;> simp [Trace.end', hx]

lemma traceEnd_of_ended (tr : Trace) (t : String) (h : tr.ended = true) :
    Trace.end' tr t = (tr, 0) := by
  simp [Trace.end', h]

/-- Claim C6 (trace end semantics): the first `end()` on a trace
force-ends every span in its span list, sets `endTime`, invokes the
registered on-end callback exactly once, and — when the status was never
explicitly set — computes the trace status as `error` exactly when some
finalized span status is `error`, else `ok`. -/
theorem C6_trace_end_semantics (tr : Trace) (t : String)
    (h : tr.ended = false) (hc : tr.hasOnEnd = true) :
    (∀ sp ∈ (Trace.end' tr t).1.spans, sp.ended = true) ∧
    (Trace.end' tr t).1.endTime = some t ∧
    (Trace.end' tr t).2 = 1 ∧
    (Trace.end' tr t).1.status =
      (if tr.status = SpanStatus.unset then
        (if (Trace.end' tr t).1.spans.any (fun sp => sp.status = SpanStatus.error)
         then SpanStatus.error else SpanStatus.ok)
       else tr.status) := by
  have hspans : (Trace.end' tr t).1.spans
      = tr.spans.map (fun sp => if sp.ended then sp else sp.end' t) := by
    simp [Trace.end', h]
  refine ⟨?_, by simp [Trace.end', h], by simp [Trace.end', h, hc], ?_⟩
  · intro sp hsp
    rw [hspans] at hsp
    obtain ⟨sp0, _, rfl⟩ := List.mem_map.mp hsp
    by_cases h0 : sp0.ended = true
    · simp [h0]
    · have h0' : sp0.ended = false := by
        cases hx : sp0.ended
        · rfl
        · exact absurd hx h0
      simp [h0', spanEnd_ended]
  · rw [hspans]
    simp [Trace.end', h]

/-- Witness for C6: a trace holding one unended span whose status is
`error`, with a registered callback; ending it yields trace status
`error`, an ended span, and one callback invocation. -/
theorem C6_trace_end_semantics_witness :
    (∀ sp ∈ (Trace.end'
        ⟨"t1", "sess", "tr", "t0", none, SpanStatus.unset,
          [{ blankSpan with status := SpanStatus.error }], [], false, true⟩
        "t9").1.spans, sp.ended = true) ∧
    (Trace.end'
        ⟨"t1", "sess", "tr", "t0", none, SpanStatus.unset,
          [{ blankSpan with status := SpanStatus.error }], [], false, true⟩
        "t9").1.endTime = some "t9" ∧
    (Trace.end'
        ⟨"t1", "sess", "tr", "t0", none, SpanStatus.unset,
          [{ blankSpan with status := SpanStatus.error }], [], false, true⟩
        "t9").2 = 1 ∧
    (Trace.end'
        ⟨"t1", "sess", "tr", "t0", none, SpanStatus.unset,
          [{ blankSpan with status := SpanStatus.error }], [], false, true⟩
        "t9").1.status =
      (if (⟨"t1", "sess", "tr", "t0", none, SpanStatus.unset,
          [{ blankSpan with status := SpanStatus.error }], [], false, true⟩ : Trace).status
            = SpanStatus.unset then
        (if (Trace.end'
            ⟨"t1", "sess", "tr", "t0", none, SpanStatus.unset,
              [{ blankSpan with status := SpanStatus.error }], [], false, true⟩
            "t9").1.spans.any (fun sp => sp.status = SpanStatus.error)
         then SpanStatus.error else SpanStatus.ok)
       else (⟨"t1", "sess", "tr", "t0", none, SpanStatus.unset,
          [{ blankSpan with status := SpanStatus.error }], [], false, true⟩ : Trace).status) :=
  C6_trace_end_semantics
    ⟨"t1", "sess", "tr", "t0", none, SpanStatus.unset,
      [{ blankSpan with status := SpanStatus.error }], [], false, true⟩
    "t9" rfl rfl

/-- Claim C7 (idempotent end): a second `end()` on a span or a trace is a
no-op leaving the whole record (endTime, status, ended flag, everything)
unchanged, and the first `end()` on a span sets `endTime`, promotes an
`unset` status to `ok`, and marks the span ended. -/
theorem C7_idempotent_end (sp : Span) (tr : Trace) (t t2 : String)
    (h : sp.ended = false) :
    Span.end' (Span.end' sp t) t2 = Span.end' sp t ∧
    Trace.end' (Trace.end' tr t).1 t2 = ((Trace.end' tr t).1, 0) ∧
    (Span.end' sp t).endTime = some t ∧
    (Span.end' sp t).status =
      (if sp.status = SpanStatus.unset then SpanStatus.ok else sp.status) ∧
    (Span.end' sp t).ended = true := by
  refine ⟨spanEnd_of_ended _ t2 (spanEnd_ended sp t),
    traceEnd_of_ended _ t2 (traceEnd_ended tr t), ?_, ?_, ?_⟩ <;>
    simp [Span.end', h]

/-- Witness for C7 at a fresh span and a fresh single-span trace. -/
theorem C7_idempotent_end_witness :
    Span.end' (Span.end' blankSpan "t1") "t2" = Span.end' blankSpan "t1" ∧
    Trace.end' (Trace.end'
        ⟨"t1", "sess", "tr", "t0", none, SpanStatus.unset, [blankSpan], [], false, false⟩
        "t1").1 "t2"
      = ((Trace.end'
        ⟨"t1", "sess", "tr", "t0", none, SpanStatus.unset, [blankSpan], [], false, false⟩
        "t1").1, 0) ∧
    (Span.end' blankSpan "t1").endTime = some "t1" ∧
    (Span.end' blankSpan "t1").status =
      (if blankSpan.status = SpanStatus.unset then SpanStatus.ok else blankSpan.status) ∧
    (Span.end' blankSpan "t1").ended = true :=
  C7_idempotent_end blankSpan
    ⟨"t1", "sess", "tr", "t0", none, SpanStatus.unset, [blankSpan], [], false, false⟩
    "t1" "t2" rfl

/-- Claim C8 counterexample: `setTokens(150, 75)` on a fresh span writes
eight attribute keys, not six — `gen_ai.usage.prompt_tokens` and
`gen_ai.usage.completion_tokens` are written in addition to the three
modern and the three other legacy spellings. -/
theorem C8_setTokens_six_keys_cex :
    (blankSpan.setTokens 150 75).attributes.map Prod.fst =
      ["gen_ai.usage.input_tokens", "gen_ai.usage.output_tokens",
       "gen_ai.usage.total_tokens", "gen_ai.usage.prompt_tokens",
       "gen_ai.usage.completion_tokens", "gen_ai.prompt_tokens",
       "gen_ai.completion_tokens", "gen_ai.total_tokens"] ∧
    ¬ ((blankSpan.setTokens 150 75).attributes.length = 6) := by
  constructor
  · decide
  · decide

/-- Claim C8 (amended): `setTokens(input, output)` computes
`total = input + output` with no non-negativity validation and writes
exactly eight attribute keys — three modern spellings and five legacy
spellings — where every legacy key carries the same value as its modern
counterpart. -/
theorem C8_setTokens_amended (sp : Span) (inputTokens outputTokens : ℚ) :
    getAttr (sp.setTokens inputTokens outputTokens).attributes
        "gen_ai.usage.input_tokens" = some (AttrVal.num (inputTokens : ℚ)) ∧
    getAttr (sp.setTokens inputTokens outputTokens).attributes
        "gen_ai.usage.output_tokens" = some (AttrVal.num (outputTokens : ℚ)) ∧
    getAttr (sp.setTokens inputTokens outputTokens).attributes
        "gen_ai.usage.total_tokens"
        = some (AttrVal.num ((inputTokens + outputTokens : ℚ) : ℚ)) ∧
    getAttr (sp.setTokens inputTokens outputTokens).attributes
        "gen_ai.usage.prompt_tokens" = some (AttrVal.num (inputTokens : ℚ)) ∧
    getAttr (sp.setTokens inputTokens outputTokens).attributes
        "gen_ai.usage.completion_tokens" = some (AttrVal.num (outputTokens : ℚ)) ∧
    getAttr (sp.setTokens inputTokens outputTokens).attributes
        "gen_ai.prompt_tokens" = some (AttrVal.num (inputTokens : ℚ)) ∧
    getAttr (sp.setTokens inputTokens outputTokens).attributes
        "gen_ai.completion_tokens" = some (AttrVal.num (outputTokens : ℚ)) ∧
    getAttr (sp.setTokens inputTokens outputTokens).attributes
        "gen_ai.total_tokens"
        = some (AttrVal.num ((inputTokens + outputTokens : ℚ) : ℚ)) ∧
    (Span.setTokens blankSpan inputTokens outputTokens).attributes.map Prod.fst =
      ["gen_ai.usage.input_tokens", "gen_ai.usage.output_tokens",
       "gen_ai.usage.total_tokens", "gen_ai.usage.prompt_tokens",
       "gen_ai.usage.completion_tokens", "gen_ai.prompt_tokens",
       "gen_ai.completion_tokens", "gen_ai.total_tokens"] := by
  refine ⟨?_, ?_, ?_, ?_, ?_, ?_, ?_, ?_, ?_⟩ <;>
    simp only [Span.setTokens, blankSpan] <;>
    (repeat rw [getAttr_setAttr_ne _ _ _ _ (by decide)]) <;>
    (try rw [getAttr_setAttr_self]) <;>
    rfl

lemma jsMathMax_spec (xs : List ℚ) (h : xs ≠ []) :
    ∃ m : ℚ, jsMathMax xs = (m : WithBot ℚ) ∧ m ∈ xs ∧ ∀ x ∈ xs, x ≤ m := by
  induction xs with
  | nil => exact absurd rfl h
  | cons x rest ih =>
    cases rest with
    | nil =>
      refine ⟨x, ?_, List.mem_singleton.mpr rfl, ?_⟩
      · show max (x : WithBot ℚ) ⊥ = (x : WithBot ℚ)
        exact max_eq_left bot_le
      · intro y hy
        rw [List.mem_singleton] at hy
        subst hy
        exact le_refl y
    | cons z zs =>
      obtain ⟨m, hm, hmem, hub⟩ := ih (by simp)
      refine ⟨max x m, ?_, ?_, ?_⟩
      · show max (x : WithBot ℚ) (jsMathMax (z :: zs)) = ((max x m : ℚ) : WithBot ℚ)
        rw [hm, WithBot.coe_max]
      · rcases max_choice x m with hmx | hmx
        · rw [hmx]; exact List.mem_cons_self x (z :: zs)
        · rw [hmx]; exact List.mem_cons_of_mem x hmem
      · intro y hy
        rcases List.mem_cons.mp hy with hh | hh
        · rw [hh]; exact le_max_left x m
        · exact le_trans (hub y hh) (le_max_right x m)

lemma content_sum_cast (context : List Doc) :
    ((context.foldl (fun sum doc => sum + doc.content.length) 0 : ℕ) : ℚ)
      = (context.map (fun d => (d.content.length : ℚ))).sum := by
  have h1 : (context.foldl (fun sum doc => sum + doc.content.length) 0 : ℕ)
      = (context.map (fun d => d.content.length)).sum := by
    rw [List.sum_eq_foldl, List.foldl_map]
  rw [h1, Nat.cast_list_sum, List.map_map]
  rfl

/-- Claim C9 counterexample: `setRetrievedContext([])` does not fail —
JavaScript `Math.max()` with no arguments returns `-Infinity` (modelled as
`⊥`), so the call completes and writes `top_score = -Infinity`,
`context_length = 0`. -/
theorem C9_empty_docs_cex :
    getAttr (blankSpan.setRetrievedContext []).attributes "top_score"
        = some (AttrVal.num ⊥) ∧
    getAttr (blankSpan.setRetrievedContext []).attributes "context_length"
        = some (AttrVal.num (0 : ℚ)) ∧
    getAttr (blankSpan.setRetrievedContext []).attributes "retrieved_context"
        = some (AttrVal.jsonArr []) := by
  refine ⟨by decide, by decide, by decide⟩

/-- Claim C9 (amended): `setRetrievedContext(docs)` never raises.  On a
non-empty `docs` it sets `context_length` to the sum of the documents'
content lengths and `top_score` to the maximum of the documents' scores;
on an empty array it instead completes with `top_score = -Infinity` (see
the counterexample). -/
theorem C9_retrieved_context_amended (sp : Span) (context : List Doc)
    (h : context ≠ []) :
    getAttr (sp.setRetrievedContext context).attributes "context_length"
        = some (AttrVal.num ((context.map (fun d => (d.content.length : ℚ))).sum : ℚ)) ∧
    ∃ m : ℚ,
      getAttr (sp.setRetrievedContext context).attributes "top_score"
          = some (AttrVal.num (m : ℚ)) ∧
      m ∈ context.map (fun d => d.score) ∧
      ∀ x ∈ context.map (fun d => d.score), x ≤ m := by
  constructor
  · simp only [Span.setRetrievedContext]
    rw [getAttr_setAttr_ne _ _ _ _ (by decide), getAttr_setAttr_self,
      content_sum_cast]
  · obtain ⟨m, hm, hmem, hub⟩ := jsMathMax_spec (context.map (fun d => d.score))
      (by simpa using h)
    refine ⟨m, ?_, hmem, hub⟩
    simp only [Span.setRetrievedContext]
    rw [getAttr_setAttr_self, hm]

/-- Witness for C9 (amended) on two concrete documents with scores 1/2
and 3/4. -/
theorem C9_retrieved_context_amended_witness :
    ([⟨"d1", "abcd", 1/2⟩, ⟨"d2", "xy", 3/4⟩] : List Doc) ≠ [] ∧
    (getAttr (blankSpan.setRetrievedContext
          [⟨"d1", "abcd", 1/2⟩, ⟨"d2", "xy", 3/4⟩]).attributes "context_length"
        = some (AttrVal.num
            ((([⟨"d1", "abcd", 1/2⟩, ⟨"d2", "xy", 3/4⟩] : List Doc).map
              (fun d => (d.content.length : ℚ))).sum : ℚ)) ∧
     ∃ m : ℚ,
       getAttr (blankSpan.setRetrievedContext
            [⟨"d1", "abcd", 1/2⟩, ⟨"d2", "xy", 3/4⟩]).attributes "top_score"
           = some (AttrVal.num (m : ℚ)) ∧
       m ∈ ([⟨"d1", "abcd", 1/2⟩, ⟨"d2", "xy", 3/4⟩] : List Doc).map (fun d => d.score) ∧
       ∀ x ∈ ([⟨"d1", "abcd", 1/2⟩, ⟨"d2", "xy", 3/4⟩] : List Doc).map (fun d => d.score),
         x ≤ m) :=
  ⟨by simp, C9_retrieved_context_amended blankSpan
    [⟨"d1", "abcd", 1/2⟩, ⟨"d2", "xy", 3/4⟩] (by simp)⟩

end AmpSDK
